import Mathlib

/-!
# Verification of the uiautomator native shell server (`main.c`)

A shallow embedding in Lean 4 of the native TCP-shell server found at
`test/uiautomator/uiautomator-shell/src/androidMain/cxx/main.c`.

The server parses a verbosity flag and three port numbers from its command
line, creates three listening TCP sockets (stdin/stdout/stderr roles),
prints its own pid, and then loops: it accepts one connection per role,
forks, and the child runs `/system/bin/sh` with its standard streams
redirected onto the three accepted sockets.  Signal handlers implement a
graceful shutdown (SIGTERM/SIGINT) and zombie reaping (SIGCHLD).

System calls (`socket`, `bind`, `accept`, `fork`, `waitpid`, ...) are
modelled by explicit environments recording the outcome the kernel would
return, and the embedding records the sequence of observable actions
(closes, writes, socket operations) that the C code performs, so that
resource-handling claims can be stated as properties of those traces.

The C library functions `strtoul` and `atoi` are modelled after bionic
(Android's libc, the target platform of this file): `strtoul` skips
leading whitespace, accepts one optional sign (`-` negates modulo 2^64 in
unsigned arithmetic), converts decimal digits, sets `errno` to `ERANGE` on
overflow and to `EINVAL` when no digit was converted, and leaves `endptr`
after the last converted digit (or at the start of the string when nothing
was converted).
-/

namespace NativeShell

/-! ## C character classification and decimal digit strings -/

/-- `isspace` in the C locale: space, tab, newline, vertical tab, form feed,
carriage return. -/
def isSpaceChar (c : Char) : Bool :=
  decide (c = ' ' ∨ c = '\t' ∨ c = '\n' ∨ c = '\x0b' ∨ c = '\x0c' ∨ c = '\r')

/-- The numeric value of a decimal digit string, most significant first. -/
def digitsVal (l : List Char) : Nat :=
  l.foldl (fun a c => a * 10 + (c.toNat - '0'.toNat)) 0

/-! ## `strtoul(arg, &endptr, 10)` as implemented by bionic -/

/-- `ULONG_MAX` on a 64-bit Android platform. -/
def ULONG_MAX : Nat := 2 ^ 64 - 1

/-- `errno` values used by the model. `0` means no error. -/
def EINVAL : Nat := 22

/-- `errno` value reported by `strtoul` on overflow. -/
def ERANGE : Nat := 34

/-- Result of a `strtoul` call: the returned `unsigned long` value, the
characters remaining after `endptr`, and the resulting `errno` (the C code
resets `errno` to `0` before the call, so `0` here means untouched). -/
structure StrtoulResult where
  value : Nat
  rest : List Char
  errno : Nat
  deriving Repr, DecidableEq

/-- The sign step of bionic's `strtoul`: a leading `-` records negation, a
leading `+` is skipped, anything else leaves the input untouched. -/
def splitSign (s : List Char) : Bool × List Char :=
  match s with
  | [] => (false, [])
  | c :: t => if c = '-' then (true, t) else if c = '+' then (false, t) else (false, c :: t)

/-- Bionic's `strtoul(s, &endptr, 10)`: skip `isspace` characters, consume
one optional `-` or `+`, convert decimal digits.  No digit converted sets
`errno = EINVAL` and leaves `endptr` at the start; overflow past
`ULONG_MAX` sets `errno = ERANGE`; a `-` sign negates the converted value
in `unsigned long` arithmetic (modulo `2^64`). -/
def strtoul10 (s : List Char) : StrtoulResult :=
  let sg := splitSign (s.dropWhile isSpaceChar)
  let ds := sg.2.takeWhile Char.isDigit
  let rest := sg.2.dropWhile Char.isDigit
  if ds = [] then
    { value := 0, rest := s, errno := EINVAL }
  else if ULONG_MAX < digitsVal ds then
    { value := if sg.1 then 0 else ULONG_MAX, rest := rest, errno := ERANGE }
  else
    { value := if sg.1 then (2 ^ 64 - digitsVal ds) % 2 ^ 64 else digitsVal ds,
      rest := rest, errno := 0 }

/-- `UINT16_MAX`, the largest admissible port number. -/
def UINT16_MAX : Nat := 65535

/-- `parsePortArg` (main.c:139-153): `strtoul` in base 10, rejecting the
argument when `errno` was set, when `*endptr != '\0'` (trailing
characters), or when the value exceeds `UINT16_MAX`; on success stores the
value through `port_out` and returns `0`.  Modelled as returning
`some port` on success and `none` on the `-1` error return. -/
def parsePortArg (arg : String) : Option Nat :=
  let r := strtoul10 arg.data
  if r.errno ≠ 0 ∨ r.rest ≠ [] ∨ UINT16_MAX < r.value then
    none
  else
    some r.value

/-! Specification-side predicates for the port parser. -/

/-- The spec's acceptance predicate as claimed: the argument is a pure
base-10 integer (nonempty, decimal digits only) whose value is in
`[0, 65535]`, with no trailing characters, and `n` is that value. -/
def pureDecimalInRange (s : String) (n : Nat) : Prop :=
  s.data ≠ [] ∧ (∀ c ∈ s.data, c.isDigit) ∧ digitsVal s.data = n ∧ n ≤ UINT16_MAX

instance (s : String) (n : Nat) : Decidable (pureDecimalInRange s n) := by
  unfold pureDecimalInRange; infer_instance

/-- The corrected acceptance predicate: the argument decomposes as optional
leading C whitespace, an optional single sign, and a nonempty run of
decimal digits reaching the end of the string; the digit value fits in an
`unsigned long`, and the resulting value (negated modulo `2^64` when the
sign is `-`) is the port and is at most `65535`. -/
def strtoulAccepts (s : String) (n : Nat) : Prop :=
  ∃ ws sgn ds : List Char,
    s.data = ws ++ sgn ++ ds ∧
    (∀ c ∈ ws, isSpaceChar c) ∧
    (sgn = [] ∨ sgn = ['+'] ∨ sgn = ['-']) ∧
    ds ≠ [] ∧ (∀ c ∈ ds, c.isDigit) ∧
    digitsVal ds ≤ ULONG_MAX ∧
    n = (if sgn = ['-'] then (2 ^ 64 - digitsVal ds) % 2 ^ 64 else digitsVal ds) ∧
    n ≤ UINT16_MAX

/-! ## Character and list facts used by the parser proofs -/

lemma isDigit_not_space {c : Char} (h : c.isDigit = true) : isSpaceChar c = false := by
  unfold isSpaceChar
  rw [decide_eq_false_iff_not]
  rintro (rfl | rfl | rfl | rfl | rfl | rfl) <;> exact absurd h (by decide)

lemma isDigit_ne_neg {c : Char} (h : c.isDigit = true) : c ≠ '-' := by
  rintro rfl; exact absurd h (by decide)

lemma isDigit_ne_pos {c : Char} (h : c.isDigit = true) : c ≠ '+' := by
  rintro rfl; exact absurd h (by decide)

lemma dropWhile_append_of_all {p : Char → Bool} {l1 l2 : List Char}
    (h : ∀ c ∈ l1, p c = true) : (l1 ++ l2).dropWhile p = l2.dropWhile p := by
  induction l1 with
  | nil => rfl
  | cons c t ih =>
    rw [List.cons_append, List.dropWhile_cons, if_pos (h c (by simp))]
    exact ih fun x hx => h x (by simp [hx])

lemma takeWhile_eq_self_of_dropWhile_nil {p : Char → Bool} {l : List Char}
    (h : l.dropWhile p = []) : l.takeWhile p = l := by
  conv_rhs => rw [← List.takeWhile_append_dropWhile p l]
  rw [h, List.append_nil]

/-! ## Characterization of `parsePortArg` -/

lemma parse_success_parts {s : String} {n : Nat} {neg : Bool} {l : List Char}
    (hsg : splitSign (s.data.dropWhile isSpaceChar) = (neg, l))
    (h : parsePortArg s = some n) :
    l ≠ [] ∧ (∀ c ∈ l, c.isDigit = true) ∧ digitsVal l ≤ ULONG_MAX ∧
      n = (if neg then (2 ^ 64 - digitsVal l) % 2 ^ 64 else digitsVal l) ∧
      n ≤ UINT16_MAX := by
  simp only [parsePortArg, strtoul10, hsg] at h
  by_cases h1 : l.takeWhile Char.isDigit = []
  · simp [h1, EINVAL] at h
  · by_cases h2 : ULONG_MAX < digitsVal (l.takeWhile Char.isDigit)
    · simp [h1, h2, ERANGE] at h
    · by_cases h3 : l.dropWhile Char.isDigit = []
      · have htake : l.takeWhile Char.isDigit = l := takeWhile_eq_self_of_dropWhile_nil h3
        rw [htake] at h1 h2
        simp [h1, h2, h3, htake] at h
        obtain ⟨hle', hval'⟩ := h
        refine ⟨h1, List.dropWhile_eq_nil_iff.mp h3, not_lt.mp h2, ?_, ?_⟩
        · simpa using hval'.symm
        · rw [← hval']; simpa using hle'
      · simp [h1, h2, h3] at h

lemma parsePortArg_sound {s : String} {n : Nat} (h : parsePortArg s = some n) :
    strtoulAccepts s n := by
  have hsd : s.data = s.data.takeWhile isSpaceChar ++ s.data.dropWhile isSpaceChar :=
    (List.takeWhile_append_dropWhile isSpaceChar s.data).symm
  have hws : ∀ c ∈ s.data.takeWhile isSpaceChar, isSpaceChar c = true :=
    fun c hc => List.mem_takeWhile_imp hc
  rcases hs1 : s.data.dropWhile isSpaceChar with _ | ⟨c, t⟩
  · exfalso
    have hsg : splitSign (s.data.dropWhile isSpaceChar) = (false, []) := by
      rw [hs1]; rfl
    obtain ⟨hne, -, -, -, -⟩ := parse_success_parts hsg h
    exact hne rfl
  · by_cases hc1 : c = '-'
    · subst hc1
      have hsg : splitSign (s.data.dropWhile isSpaceChar) = (true, t) := by
        rw [hs1]; rfl
      obtain ⟨hne, hdig, hbound, hval, hle⟩ := parse_success_parts hsg h
      exact ⟨s.data.takeWhile isSpaceChar, ['-'], t,
        by rw [List.append_assoc, List.singleton_append, ← hs1]; exact hsd,
        hws, Or.inr (Or.inr rfl),
        hne, hdig, hbound, by simpa using hval, hle⟩
    · by_cases hc2 : c = '+'
      · subst hc2
        have hsg : splitSign (s.data.dropWhile isSpaceChar) = (false, t) := by
          rw [hs1]; rfl
        obtain ⟨hne, hdig, hbound, hval, hle⟩ := parse_success_parts hsg h
        exact ⟨s.data.takeWhile isSpaceChar, ['+'], t,
          by rw [List.append_assoc, List.singleton_append, ← hs1]; exact hsd,
          hws, Or.inr (Or.inl rfl),
          hne, hdig, hbound, by simpa using hval, hle⟩
      · have hsg : splitSign (s.data.dropWhile isSpaceChar) = (false, c :: t) := by
          rw [hs1]; simp [splitSign, hc1, hc2]
        obtain ⟨hne, hdig, hbound, hval, hle⟩ := parse_success_parts hsg h
        exact ⟨s.data.takeWhile isSpaceChar, [], c :: t,
          by rw [List.append_nil, ← hs1]; exact hsd, hws, Or.inl rfl,
          hne, hdig, hbound, by simpa using hval, hle⟩

lemma parsePortArg_complete {s : String} {n : Nat} (h : strtoulAccepts s n) :
    parsePortArg s = some n := by
  obtain ⟨ws, sgn, ds, hdecomp, hwsp, hsgn, hne, hdig, hbound, hval, hle⟩ := h
  have hdsdrop : ds.dropWhile Char.isDigit = [] := List.dropWhile_eq_nil_iff.mpr hdig
  have hdstake : ds.takeWhile Char.isDigit = ds := takeWhile_eq_self_of_dropWhile_nil hdsdrop
  have hdsnospace : ds.dropWhile isSpaceChar = ds := by
    cases ds with
    | nil => rfl
    | cons d t =>
      rw [List.dropWhile_cons, if_neg]
      simp [isDigit_not_space (hdig d (by simp))]
  have h1 : s.data.dropWhile isSpaceChar = sgn ++ ds := by
    rw [hdecomp, List.append_assoc, dropWhile_append_of_all hwsp]
    rcases hsgn with rfl | rfl | rfl
    · rw [List.nil_append]; exact hdsnospace
    · rw [List.singleton_append, List.dropWhile_cons, if_neg (by decide)]
    · rw [List.singleton_append, List.dropWhile_cons, if_neg (by decide)]
  have hsg : splitSign (s.data.dropWhile isSpaceChar) =
      (decide (sgn = ['-']), ds) := by
    rw [h1]
    rcases hsgn with rfl | rfl | rfl
    · rw [List.nil_append]
      cases ds with
      | nil => exact absurd rfl hne
      | cons d t =>
        have hd := hdig d (by simp)
        simp [splitSign, isDigit_ne_neg hd, isDigit_ne_pos hd]
    · simp [splitSign]
    · simp [splitSign]
  have hsome : strtoul10 s.data = { value := n, rest := [], errno := 0 } := by
    simp only [strtoul10, hsg, hdstake, hdsdrop]
    rw [if_neg hne, if_neg (not_lt.mpr hbound)]
    simp only [StrtoulResult.mk.injEq, and_true]
    rcases hsgn with rfl | rfl | rfl <;> simp_all
  simp [parsePortArg, hsome, not_lt.mpr hle]

/-! ## C1 -/

/-- C1 counterexample: `parsePortArg` is *not* equivalent to "the string is
a pure base-10 integer in `[0, 65535]` with no trailing characters":
the argument `"+1"` is accepted (yielding port 1) although it is not a pure
base-10 digit string. -/
theorem C1_pure_decimal_counterexample :
    parsePortArg "+1" = some 1 ∧ ¬ pureDecimalInRange "+1" 1 := by
  constructor
  · decide
  · decide

/-- C1 (amended): `parsePortArg` succeeds with value `n` iff the argument
consists of optional leading C whitespace, one optional sign, and a
nonempty base-10 digit string with no trailing characters, whose value
fits in an `unsigned long` and, after the unsigned negation applied by a
`-` sign, is at most 65535.  The claim's concrete examples all hold:
`"8080"` parses to 8080, while `"-1"`, `"70000"`, `"12a"` and `""` are all
rejected. -/
theorem C1_parsePortArg_amended :
    (∀ (s : String) (n : Nat), parsePortArg s = some n ↔ strtoulAccepts s n) ∧
    parsePortArg "8080" = some 8080 ∧
    parsePortArg "-1" = none ∧
    parsePortArg "70000" = none ∧
    parsePortArg "12a" = none ∧
    parsePortArg "" = none := by
  refine ⟨fun s n => ⟨parsePortArg_sound, parsePortArg_complete⟩, ?_, ?_, ?_, ?_, ?_⟩ <;> decide

/-! ## `atoi` (bionic): `(int) strtol(s, NULL, 10)` -/

/-- `LONG_MAX` on a 64-bit Android platform. -/
def LONG_MAX : Int := 2 ^ 63 - 1

/-- `LONG_MIN` on a 64-bit Android platform. -/
def LONG_MIN : Int := -(2 ^ 63)

/-- Bionic's `strtol(s, NULL, 10)`: same scan as `strtoul10` but the value
is clamped to `[LONG_MIN, LONG_MAX]` on overflow and a `-` sign negates in
signed arithmetic. -/
def strtol10 (s : List Char) : Int :=
  let sg := splitSign (s.dropWhile isSpaceChar)
  let ds := sg.2.takeWhile Char.isDigit
  if ds = [] then 0
  else if sg.1 then
    if 2 ^ 63 < digitsVal ds then LONG_MIN else -(digitsVal ds : Int)
  else
    if 2 ^ 63 - 1 < digitsVal ds then LONG_MAX else (digitsVal ds : Int)

/-- Truncation of a C `long` to a C `int` (two's complement, 32 bits). -/
def toInt32 (n : Int) : Int :=
  let m := n % 2 ^ 32
  if m < 2 ^ 31 then m else m - 2 ^ 32

/-- Bionic's `atoi`, used for the verbosity argument (main.c:272). -/
def atoi (s : String) : Int := toInt32 (strtol10 s.data)

/-- The guard of the `LOGI` macro (main.c:39): informational logs are
printed only when the global `verboselogs` equals `1`. -/
def verboseEnabled (verboselogs : Int) : Bool := verboselogs = 1

/-! ## Listening socket factory (`createSocket`, main.c:60-100)

The kernel side of each system call is modelled by a `SockEnv` recording
whether the call would succeed; the embedding records which calls the C
code performs, in order, as a list of `SockAct`. -/

/-- Kernel responses for one `createSocket` invocation: the descriptor
`socket(2)` would return (`none` = failure), and whether `setsockopt`,
`bind` and `listen` would succeed. -/
structure SockEnv where
  socketFd : Option Nat
  setsockoptOk : Bool
  bindOk : Bool
  listenOk : Bool
  deriving Repr, DecidableEq

/-- Socket-related actions the server performs, in program order. -/
inductive SockAct where
  | socketCall (res : Option Nat)
  | setsockoptCall (fd : Nat)
  | bindCall (fd : Nat) (port : Nat)
  | listenCall (fd : Nat) (backlog : Nat)
  | closeFd (fd : Nat)
  deriving Repr, DecidableEq

/-- `createSocket(port)` (main.c:60-100): `socket`, `setsockopt(SO_REUSEADDR)`,
`bind` to `(INADDR_LOOPBACK, port)`, `listen(fd, 100)`.  On failure of any
step after `socket` succeeded, the descriptor is closed and `-1` (here
`none`) is returned; on success the listening descriptor is returned. -/
def createSocket (port : Nat) (env : SockEnv) : Option Nat × List SockAct :=
  match env.socketFd with
  | none => (none, [.socketCall none])
  | some fd =>
    if !env.setsockoptOk then
      (none, [.socketCall (some fd), .setsockoptCall fd, .closeFd fd])
    else if !env.bindOk then
      (none, [.socketCall (some fd), .setsockoptCall fd, .bindCall fd port, .closeFd fd])
    else if !env.listenOk then
      (none, [.socketCall (some fd), .setsockoptCall fd, .bindCall fd port,
              .listenCall fd 100, .closeFd fd])
    else
      (some fd, [.socketCall (some fd), .setsockoptCall fd, .bindCall fd port,
                 .listenCall fd 100])

/-- Descriptors successfully allocated by `socket(2)` in a trace. -/
def createdFds (acts : List SockAct) : List Nat :=
  acts.filterMap fun a =>
    match a with
    | .socketCall (some fd) => some fd
    | _ => none

/-- Descriptors passed to `close(2)` in a trace. -/
def closedFds (acts : List SockAct) : List Nat :=
  acts.filterMap fun a =>
    match a with
    | .closeFd fd => some fd
    | _ => none

/-! ## Startup (`main`, main.c:264-309) -/

/-- How `main` leaves the startup phase: an early `return code`, or entry
into the accept loop holding the three listening descriptors. -/
inductive MainOutcome where
  | exit (code : Nat)
  | enterLoop (stdinFd stdoutFd stderrFd : Nat)
  deriving Repr, DecidableEq

/-- The observable result of the startup phase of `main`: the outcome, the
socket actions performed (in order), the strings written to the process's
standard output (in order), and the final value of the `verboselogs`
global. -/
structure StartResult where
  outcome : MainOutcome
  sockEvents : List SockAct
  stdoutOut : List String
  verboselogs : Int
  deriving Repr, DecidableEq

/-- The line `printf("%d \n", getpid())` writes (main.c:308): the pid in
decimal, a space, and a newline. -/
def pidLine (pid : Nat) : String := toString pid ++ " \n"

/-- The startup phase of `main` (main.c:264-309): check `argc == 5`, set
`verboselogs := atoi(argv[1])`, parse the three ports (returning `1` on any
failure before any socket work), create the three listening sockets
(closing every previously created one and returning `1` if any creation
fails), then print the pid line.  `argv` is the full argument vector
including the program name; `envIn`/`envOut`/`envErr` are the kernel
responses for the three `createSocket` calls; `pid` is `getpid()`. -/
def mainStartup (argv : List String) (envIn envOut envErr : SockEnv) (pid : Nat) :
    StartResult :=
  match argv with
  | [_, verboseArg, stdinArg, stdoutArg, stderrArg] =>
    let v := atoi verboseArg
    match parsePortArg stdinArg with
    | none => { outcome := .exit 1, sockEvents := [], stdoutOut := [], verboselogs := v }
    | some stdinPort =>
      match parsePortArg stdoutArg with
      | none => { outcome := .exit 1, sockEvents := [], stdoutOut := [], verboselogs := v }
      | some stdoutPort =>
        match parsePortArg stderrArg with
        | none => { outcome := .exit 1, sockEvents := [], stdoutOut := [], verboselogs := v }
        | some stderrPort =>
          let r1 := createSocket stdinPort envIn
          match r1.1 with
          | none =>
            { outcome := .exit 1, sockEvents := r1.2, stdoutOut := [], verboselogs := v }
          | some fd1 =>
            let r2 := createSocket stdoutPort envOut
            match r2.1 with
            | none =>
              { outcome := .exit 1, sockEvents := r1.2 ++ r2.2 ++ [.closeFd fd1],
                stdoutOut := [], verboselogs := v }
            | some fd2 =>
              let r3 := createSocket stderrPort envErr
              match r3.1 with
              | none =>
                { outcome := .exit 1,
                  sockEvents := r1.2 ++ r2.2 ++ r3.2 ++ [.closeFd fd1, .closeFd fd2],
                  stdoutOut := [], verboselogs := v }
              | some fd3 =>
                { outcome := .enterLoop fd1 fd2 fd3,
                  sockEvents := r1.2 ++ r2.2 ++ r3.2,
                  stdoutOut := [pidLine pid], verboselogs := v }
  | _ => { outcome := .exit 1, sockEvents := [], stdoutOut := [], verboselogs := 0 }

/-! ## One iteration of the interactive accept loop (main.c:313-398)

The parent's view of one pass through the `while (!serverShutdown)` body:
the environment supplies the outcome of the three `accept` calls and of
`fork`; the trace records which descriptors the parent closes, that it
never touches the listening descriptors, and which descriptors are carried
by a spawned child. -/

/-- The result `fork()` reports to the parent: failure, or a positive child
pid (the child branch runs in the other process and is not part of the
parent's control flow modelled here). -/
inductive ForkOut where
  | fail
  | parent (childPid : Nat)
  deriving Repr, DecidableEq

/-- Kernel responses for one loop iteration: the client descriptor each
`accept` would return (`none` = `accept` returned `-1`) and the `fork`
outcome. -/
structure IterEnv where
  acceptStdin : Option Nat
  acceptStdout : Option Nat
  acceptStderr : Option Nat
  forkRes : ForkOut
  deriving Repr, DecidableEq

/-- How one iteration of the accept loop ends for the parent process. -/
inductive IterResult where
  | retry
  | fatal (status : Nat)
  | spawned (childPid : Nat)
  deriving Repr, DecidableEq

/-- Parent-side actions of one loop iteration. -/
structure IterTrace where
  closedClient : List Nat
  closedServer : List Nat
  handedToChild : List Nat
  deriving Repr, DecidableEq

/-- One iteration of the accept loop (main.c:316-398), parent side.  The
close orders follow the source: on a failed stdout accept the parent
closes stdin (main.c:324); on a failed stderr accept it closes stdout then
stdin (main.c:331-332); on a failed fork it closes stderr, stdout, stdin
and returns `1` (main.c:345-349); after a successful fork it closes its
copies of stdin, stdout, stderr (main.c:395-397). -/
def loopIter (env : IterEnv) : IterResult × IterTrace :=
  match env.acceptStdin with
  | none => (.retry, ⟨[], [], []⟩)
  | some cin =>
    match env.acceptStdout with
    | none => (.retry, ⟨[cin], [], []⟩)
    | some cout =>
      match env.acceptStderr with
      | none => (.retry, ⟨[cout, cin], [], []⟩)
      | some cerr =>
        match env.forkRes with
        | .fail => (.fatal 1, ⟨[cerr, cout, cin], [], []⟩)
        | .parent childPid => (.spawned childPid, ⟨[cin, cout, cerr], [], [cin, cout, cerr]⟩)

/-- The client descriptors accepted during an iteration, in accept order,
up to the first failing `accept`. -/
def acceptedClients (env : IterEnv) : List Nat :=
  match env.acceptStdin with
  | none => []
  | some cin =>
    match env.acceptStdout with
    | none => [cin]
    | some cout =>
      match env.acceptStderr with
      | none => [cin, cout]
      | some cerr => [cin, cout, cerr]

/-! ## Shutdown path (main.c:158-182, 399-404) -/

/-- The state of one listening socket as seen by the shutdown path:
whether its descriptor is still open, and whether a successful
`shutdown(2)` has been applied to it. -/
structure SockState where
  isOpen : Bool
  wasShutdown : Bool
  deriving Repr, DecidableEq

/-- Process-wide state touched by the shutdown path: the three listening
sockets, the pid marker file `/data/local/tmp/process.pid`, and the
`serverShutdown` flag. -/
structure SrvState where
  sin : SockState
  sout : SockState
  serr : SockState
  markerExists : Bool
  serverShutdown : Bool
  deriving Repr, DecidableEq

/-- Result of one cleanup call: success, `EBADF` (operation on an
already-closed descriptor), or `ENOENT` (`remove` on a missing file).
The C code ignores all of these return values. -/
inductive CallRes where
  | ok
  | errBadf
  | errNoent
  deriving Repr, DecidableEq

/-- `shutdown(fd, SHUT_RDWR)`: marks an open socket as shut down; on an
already-closed descriptor it is a no-op failing with `EBADF`. -/
def shutdownCall (s : SockState) : SockState × CallRes :=
  if s.isOpen then ({ s with wasShutdown := true }, .ok) else (s, .errBadf)

/-- `close(fd)`: releases an open descriptor; on an already-closed
descriptor it is a no-op failing with `EBADF`. -/
def closeCall (s : SockState) : SockState × CallRes :=
  if s.isOpen then ({ s with isOpen := false }, .ok) else (s, .errBadf)

/-- `remove("/data/local/tmp/process.pid")`: deletes the marker if present;
otherwise a no-op failing with `ENOENT`. -/
def removeCall (present : Bool) : Bool × CallRes :=
  if present then (false, .ok) else (false, .errNoent)

/-- `shutdownServerSockets()` (main.c:158-168): `shutdown` then `close` on
the three listening descriptors, then `remove` the pid marker file, all
return values ignored. -/
def shutdownServerSockets (st : SrvState) : SrvState × List CallRes :=
  let a1 := shutdownCall st.sin
  let a2 := shutdownCall st.sout
  let a3 := shutdownCall st.serr
  let b1 := closeCall a1.1
  let b2 := closeCall a2.1
  let b3 := closeCall a3.1
  let m := removeCall st.markerExists
  ({ sin := b1.1, sout := b2.1, serr := b3.1, markerExists := m.1,
     serverShutdown := st.serverShutdown },
   [a1.2, a2.2, a3.2, b1.2, b2.2, b3.2, m.2])

/-- `handleSignalShutdown` (main.c:176-182): set `serverShutdown := 1`,
then run `shutdownServerSockets`. -/
def handleSignalShutdown (st : SrvState) : SrvState :=
  (shutdownServerSockets { st with serverShutdown := true }).1

/-- The tail of `main` after the accept loop exits (main.c:399-404): run
`shutdownServerSockets` once more and return `0`. -/
def mainShutdownPath (st : SrvState) : Nat × SrvState :=
  (0, (shutdownServerSockets st).1)

/-! ## SIGCHLD reaping (main.c:218-224) -/

/-- Kernel process table as seen by `waitpid`: the pids of children that
have terminated but have not been reaped (zombies, oldest first), and the
number of still-running children. -/
structure ProcTable where
  zombies : List Nat
  running : Nat
  deriving Repr, DecidableEq

/-- `waitpid(-1, &status, WNOHANG)`: reap one zombie (any child) if one is
immediately available, else return `0` when children remain or `-1`
(`ECHILD`) when none do — never blocking in either case. -/
def waitpidAnyNohang (pt : ProcTable) : Int × ProcTable :=
  match pt.zombies with
  | p :: ps => ((p : Int), { zombies := ps, running := pt.running })
  | [] => if pt.running ≠ 0 then (0, pt) else (-1, pt)

/-- `handleSignalChildEnd` (main.c:218-224): `while (waitpid(-1, &status,
WNOHANG) > 0) {}` — repeatedly reap until no terminated child is
immediately available.  Returns the final process table and the pids
reaped, in order.  Defined by structural recursion on the zombie list;
`handleSignalChildEnd_eq_loop` below proves it satisfies the while-loop
unfolding in terms of `waitpidAnyNohang`. -/
def handleSignalChildEnd : ProcTable → ProcTable × List Nat
  | ⟨[], rn⟩ => (⟨[], rn⟩, [])
  | ⟨p :: ps, rn⟩ =>
    if 0 < p then
      let r := handleSignalChildEnd ⟨ps, rn⟩
      (r.1, p :: r.2)
    else (⟨ps, rn⟩, [])

/-! ## C2 -/

/-- C2 counterexample: when all three accepts succeed and `fork` fails, the
loop iteration neither spawns a child nor continues the accept loop — the
server returns `1` (main.c:348-349), terminating the process.  This
refutes the claim that on fork failure "the accept loop continues waiting
for a new triple without the server process terminating". -/
theorem C2_fork_failure_counterexample :
    ¬ ((loopIter ⟨some 10, some 11, some 12, ForkOut.fail⟩).1 = .retry ∨
       ∃ childPid, (loopIter ⟨some 10, some 11, some 12, ForkOut.fail⟩).1 =
         .spawned childPid) ∧
    (loopIter ⟨some 10, some 11, some 12, ForkOut.fail⟩).1 = .fatal 1 := by
  constructor
  · rintro (h | ⟨childPid, h⟩) <;> simp [loopIter] at h
  · rfl

/-- C2 (amended): for every accepted connection triple, either `fork`
succeeds and exactly one child is spawned for it (the parent closing its
copies of the three descriptors), or `fork` fails and the parent closes
all three connected descriptors and exits with status `1` — fork failure
is fatal to the server, the loop does not continue. -/
theorem C2_fork_outcome_amended :
    ∀ (cin cout cerr : Nat) (fr : ForkOut),
      (fr = .fail →
        loopIter ⟨some cin, some cout, some cerr, fr⟩ =
          (.fatal 1, ⟨[cerr, cout, cin], [], []⟩)) ∧
      (∀ childPid, fr = .parent childPid →
        loopIter ⟨some cin, some cout, some cerr, fr⟩ =
          (.spawned childPid, ⟨[cin, cout, cerr], [], [cin, cout, cerr]⟩)) := by
  intro cin cout cerr fr
  constructor
  · rintro rfl; rfl
  · intro childPid h; subst h; rfl

theorem C2_fork_outcome_amended_witness :
    loopIter ⟨some 10, some 11, some 12, ForkOut.fail⟩ =
      (.fatal 1, ⟨[12, 11, 10], [], []⟩) ∧
    loopIter ⟨some 10, some 11, some 12, ForkOut.parent 77⟩ =
      (.spawned 77, ⟨[10, 11, 12], [], [10, 11, 12]⟩) :=
  ⟨(C2_fork_outcome_amended 10 11 12 .fail).1 rfl,
   (C2_fork_outcome_amended 10 11 12 (.parent 77)).2 77 rfl⟩

/-! ## C5 -/

/-- C5: in every iteration of the accept loop the parent never closes a
listening descriptor; every accepted client descriptor is either closed by
the parent or handed to a spawned child within the iteration; and when
some accept fails the iteration retries, the parent having closed exactly
the connections accepted earlier in that iteration (in reverse order of
acceptance) and handed nothing to a child. -/
theorem C5_no_stale_connections :
    ∀ env : IterEnv,
      (loopIter env).2.closedServer = [] ∧
      (∀ fd ∈ acceptedClients env,
        fd ∈ (loopIter env).2.closedClient ∨ fd ∈ (loopIter env).2.handedToChild) ∧
      ((env.acceptStdin = none ∨ env.acceptStdout = none ∨ env.acceptStderr = none) →
        (loopIter env).1 = .retry ∧
        (loopIter env).2.closedClient = (acceptedClients env).reverse ∧
        (loopIter env).2.handedToChild = []) := by
  rintro ⟨a, b, c, f⟩
  cases a <;> cases b <;> cases c <;> cases f <;>
    simp [loopIter, acceptedClients]

theorem C5_no_stale_connections_witness :
    (10 ∈ acceptedClients ⟨some 10, some 11, none, ForkOut.fail⟩) ∧
    (10 ∈ (loopIter ⟨some 10, some 11, none, ForkOut.fail⟩).2.closedClient ∨
     10 ∈ (loopIter ⟨some 10, some 11, none, ForkOut.fail⟩).2.handedToChild) ∧
    ((loopIter ⟨some 10, some 11, none, ForkOut.fail⟩).1 = .retry ∧
     (loopIter ⟨some 10, some 11, none, ForkOut.fail⟩).2.closedClient =
       (acceptedClients ⟨some 10, some 11, none, ForkOut.fail⟩).reverse ∧
     (loopIter ⟨some 10, some 11, none, ForkOut.fail⟩).2.handedToChild = []) :=
  ⟨by decide,
   (C5_no_stale_connections ⟨some 10, some 11, none, ForkOut.fail⟩).2.1 10 (by decide),
   (C5_no_stale_connections ⟨some 10, some 11, none, ForkOut.fail⟩).2.2
     (Or.inr (Or.inr rfl))⟩

/-! ## C3 -/

/-- C3: starting from a running server (all three listening sockets open),
handling a termination signal sets the `serverShutdown` flag (so the
accept loop stops at its next iteration boundary), after which the tail of
`main` returns status `0`; in the final state all three listening sockets
have been shut down and closed and the pid marker file no longer exists. -/
theorem C3_graceful_shutdown :
    ∀ st : SrvState,
      st.sin.isOpen = true → st.sout.isOpen = true → st.serr.isOpen = true →
      (handleSignalShutdown st).serverShutdown = true ∧
      (mainShutdownPath (handleSignalShutdown st)).1 = 0 ∧
      (mainShutdownPath (handleSignalShutdown st)).2.sin.isOpen = false ∧
      (mainShutdownPath (handleSignalShutdown st)).2.sin.wasShutdown = true ∧
      (mainShutdownPath (handleSignalShutdown st)).2.sout.isOpen = false ∧
      (mainShutdownPath (handleSignalShutdown st)).2.sout.wasShutdown = true ∧
      (mainShutdownPath (handleSignalShutdown st)).2.serr.isOpen = false ∧
      (mainShutdownPath (handleSignalShutdown st)).2.serr.wasShutdown = true ∧
      (mainShutdownPath (handleSignalShutdown st)).2.markerExists = false := by
  rintro ⟨⟨o1, w1⟩, ⟨o2, w2⟩, ⟨o3, w3⟩, m, f⟩ h1 h2 h3
  simp only at h1 h2 h3
  subst h1; subst h2; subst h3
  cases m <;>
    simp [handleSignalShutdown, mainShutdownPath, shutdownServerSockets,
      shutdownCall, closeCall, removeCall]

theorem C3_graceful_shutdown_witness :
    (handleSignalShutdown ⟨⟨true, false⟩, ⟨true, false⟩, ⟨true, false⟩, true, false⟩).serverShutdown = true ∧
    (mainShutdownPath (handleSignalShutdown ⟨⟨true, false⟩, ⟨true, false⟩, ⟨true, false⟩, true, false⟩)).1 = 0 ∧
    (mainShutdownPath (handleSignalShutdown ⟨⟨true, false⟩, ⟨true, false⟩, ⟨true, false⟩, true, false⟩)).2.sin.isOpen = false ∧
    (mainShutdownPath (handleSignalShutdown ⟨⟨true, false⟩, ⟨true, false⟩, ⟨true, false⟩, true, false⟩)).2.sin.wasShutdown = true ∧
    (mainShutdownPath (handleSignalShutdown ⟨⟨true, false⟩, ⟨true, false⟩, ⟨true, false⟩, true, false⟩)).2.sout.isOpen = false ∧
    (mainShutdownPath (handleSignalShutdown ⟨⟨true, false⟩, ⟨true, false⟩, ⟨true, false⟩, true, false⟩)).2.sout.wasShutdown = true ∧
    (mainShutdownPath (handleSignalShutdown ⟨⟨true, false⟩, ⟨true, false⟩, ⟨true, false⟩, true, false⟩)).2.serr.isOpen = false ∧
    (mainShutdownPath (handleSignalShutdown ⟨⟨true, false⟩, ⟨true, false⟩, ⟨true, false⟩, true, false⟩)).2.serr.wasShutdown = true ∧
    (mainShutdownPath (handleSignalShutdown ⟨⟨true, false⟩, ⟨true, false⟩, ⟨true, false⟩, true, false⟩)).2.markerExists = false :=
  C3_graceful_shutdown ⟨⟨true, false⟩, ⟨true, false⟩, ⟨true, false⟩, true, false⟩ rfl rfl rfl

/-! ## C7 -/

/-- C7: the shutdown path is idempotent and total — running
`shutdownServerSockets` a second time leaves the state unchanged, and
every call the second run makes on the already-released resources merely
reports a harmless error (`EBADF` for `shutdown`/`close` on the closed
descriptors, `ENOENT` for `remove` on the absent marker), all of which the
C code ignores. -/
theorem C7_shutdown_idempotent :
    ∀ st : SrvState,
      (shutdownServerSockets (shutdownServerSockets st).1).1 =
        (shutdownServerSockets st).1 ∧
      (shutdownServerSockets (shutdownServerSockets st).1).2 =
        [.errBadf, .errBadf, .errBadf, .errBadf, .errBadf, .errBadf, .errNoent] := by
  rintro ⟨⟨o1, w1⟩, ⟨o2, w2⟩, ⟨o3, w3⟩, m, f⟩
  cases o1 <;> cases o2 <;> cases o3 <;> cases m <;> exact ⟨rfl, rfl⟩

/-! ## C6 -/

/-- C6: the SIGCHLD handler is the non-blocking sweep
`while (waitpid(-1, &status, WNOHANG) > 0)`: it satisfies the while-loop
unfolding in terms of `waitpidAnyNohang` (each probe is `WNOHANG` for any
child, so it never blocks and targets no specific child, and the sweep
stops exactly when no terminated child is immediately available), and it
reaps every already-terminated child, leaving running children counted
and collecting the zombies in order. -/
theorem C6_reap_sweep :
    (∀ pt : ProcTable, handleSignalChildEnd pt =
      (let r := waitpidAnyNohang pt
       if 0 < r.1 then
         ((handleSignalChildEnd r.2).1, r.1.toNat :: (handleSignalChildEnd r.2).2)
       else (r.2, []))) ∧
    (∀ pt : ProcTable, (∀ p ∈ pt.zombies, 0 < p) →
      handleSignalChildEnd pt = ({ zombies := [], running := pt.running }, pt.zombies)) := by
  constructor
  · rintro ⟨zs, rn⟩
    cases zs with
    | nil => by_cases h : rn ≠ 0 <;> simp [handleSignalChildEnd, waitpidAnyNohang, h]
    | cons p ps => by_cases h : 0 < p <;>
        simp [handleSignalChildEnd, waitpidAnyNohang, h]
  · rintro ⟨zs, rn⟩
    induction zs with
    | nil => intro h; simp [handleSignalChildEnd]
    | cons p ps ih =>
      intro h
      have hp : 0 < p := h p (by simp)
      have ht := ih fun q hq => h q (by simp [hq])
      simp [handleSignalChildEnd, hp, ht]

theorem C6_reap_sweep_witness :
    (∀ p ∈ ({ zombies := [3, 5], running := 2 } : ProcTable).zombies, 0 < p) ∧
    handleSignalChildEnd { zombies := [3, 5], running := 2 } =
      ({ zombies := [], running := 2 }, [3, 5]) :=
  ⟨by decide, C6_reap_sweep.2 { zombies := [3, 5], running := 2 } (by decide)⟩

/-! ## Trace facts about `createSocket` -/

lemma createdFds_append (l1 l2 : List SockAct) :
    createdFds (l1 ++ l2) = createdFds l1 ++ createdFds l2 := by
  simp [createdFds, List.filterMap_append]

lemma closedFds_append (l1 l2 : List SockAct) :
    closedFds (l1 ++ l2) = closedFds l1 ++ closedFds l2 := by
  simp [closedFds, List.filterMap_append]

lemma createdFds_close2 (fd1 fd2 : Nat) :
    createdFds [SockAct.closeFd fd1, SockAct.closeFd fd2] = [] := rfl

lemma closedFds_close2 (fd1 fd2 : Nat) :
    closedFds [SockAct.closeFd fd1, SockAct.closeFd fd2] = [fd1, fd2] := rfl

lemma createSocket_fail_closes {port : Nat} {env : SockEnv}
    (h : (createSocket port env).1 = none) :
    ∀ fd ∈ createdFds (createSocket port env).2, fd ∈ closedFds (createSocket port env).2 := by
  rcases env with ⟨sfd, so, bo, lo⟩
  cases sfd <;> cases so <;> cases bo <;> cases lo <;>
    simp_all [createSocket, createdFds, closedFds]

lemma createSocket_ok_created {port : Nat} {env : SockEnv} {fd : Nat}
    (h : (createSocket port env).1 = some fd) :
    createdFds (createSocket port env).2 = [fd] ∧
    closedFds (createSocket port env).2 = [] := by
  rcases env with ⟨sfd, so, bo, lo⟩
  cases sfd <;> cases so <;> cases bo <;> cases lo <;>
    simp_all [createSocket, createdFds, closedFds]

/-! ## C4 -/

/-- C4: listening-endpoint creation is all-or-nothing.  Inside
`createSocket`, if any step fails, an allocated descriptor is closed and
the error value is returned.  At startup, if creation fails for any role,
the startup phase exits with status `1` and every descriptor ever
allocated by `socket(2)` — including the previously created sibling
endpoints — has been passed to `close(2)`, so no listening endpoint is
left open or half-open. -/
theorem C4_all_or_nothing :
    (∀ (port : Nat) (env : SockEnv) (fd : Nat),
      (createSocket port env).1 = none → env.socketFd = some fd →
      SockAct.closeFd fd ∈ (createSocket port env).2) ∧
    (∀ (p v a b c : String) (e1 e2 e3 : SockEnv) (pid p1 p2 p3 : Nat),
      parsePortArg a = some p1 → parsePortArg b = some p2 → parsePortArg c = some p3 →
      ((createSocket p1 e1).1 = none ∨ (createSocket p2 e2).1 = none ∨
        (createSocket p3 e3).1 = none) →
      (mainStartup [p, v, a, b, c] e1 e2 e3 pid).outcome = MainOutcome.exit 1 ∧
      ∀ fd ∈ createdFds (mainStartup [p, v, a, b, c] e1 e2 e3 pid).sockEvents,
        fd ∈ closedFds (mainStartup [p, v, a, b, c] e1 e2 e3 pid).sockEvents) := by
  constructor
  · intro port env fd h hfd
    rcases env with ⟨sfd, so, bo, lo⟩
    cases sfd <;> cases so <;> cases bo <;> cases lo <;>
      simp_all [createSocket]
  · intro p v a b c e1 e2 e3 pid p1 p2 p3 ha hb hc hdisj
    simp only [mainStartup, ha, hb, hc]
    rcases h1 : (createSocket p1 e1).1 with _ | fd1
    · exact ⟨rfl, createSocket_fail_closes h1⟩
    · rcases h2 : (createSocket p2 e2).1 with _ | fd2
      · obtain ⟨hcr1, hcl1⟩ := createSocket_ok_created h1
        refine ⟨rfl, ?_⟩
        intro fd hfd
        rw [createdFds_append, createdFds_append, hcr1] at hfd
        rw [closedFds_append, closedFds_append, hcl1]
        simp only [createdFds, closedFds, List.filterMap] at hfd ⊢
        rcases List.mem_append.mp hfd with hin | hin
        · rcases List.mem_append.mp hin with hin' | hin'
          · simp at hin'
            subst hin'
            simp
          · refine List.mem_append.mpr (Or.inl (List.mem_append.mpr (Or.inr ?_)))
            exact createSocket_fail_closes h2 fd hin'
        · simp at hin
      · rcases h3 : (createSocket p3 e3).1 with _ | fd3
        · obtain ⟨hcr1, hcl1⟩ := createSocket_ok_created h1
          obtain ⟨hcr2, hcl2⟩ := createSocket_ok_created h2
          refine ⟨rfl, ?_⟩
          intro fd hfd
          rw [createdFds_append, createdFds_append, createdFds_append,
            hcr1, hcr2, createdFds_close2, List.append_nil] at hfd
          rw [closedFds_append, closedFds_append, closedFds_append,
            hcl1, hcl2, closedFds_close2, List.nil_append, List.nil_append]
          rcases List.mem_append.mp hfd with hin | hin
          · rcases List.mem_append.mp hin with hin' | hin'
            · simp at hin'
              subst hin'
              simp
            · simp at hin'
              subst hin'
              simp
          · exact List.mem_append.mpr
              (Or.inl (createSocket_fail_closes h3 fd hin))
        · exfalso
          rcases hdisj with hd | hd | hd
          · rw [h1] at hd; cases hd
          · rw [h2] at hd; cases hd
          · rw [h3] at hd; cases hd

theorem C4_all_or_nothing_witness :
    ((createSocket 6790 ⟨some 3, true, false, true⟩).1 = none ∧
     (⟨some 3, true, false, true⟩ : SockEnv).socketFd = some 3 ∧
     SockAct.closeFd 3 ∈ (createSocket 6790 ⟨some 3, true, false, true⟩).2) ∧
    (parsePortArg "6790" = some 6790 ∧ parsePortArg "6791" = some 6791 ∧
     parsePortArg "6792" = some 6792 ∧
     (createSocket 6792 ⟨some 5, true, false, true⟩).1 = none ∧
     (mainStartup ["sh", "1", "6790", "6791", "6792"]
        ⟨some 3, true, true, true⟩ ⟨some 4, true, true, true⟩
        ⟨some 5, true, false, true⟩ 9).outcome = MainOutcome.exit 1 ∧
     ∀ fd ∈ createdFds (mainStartup ["sh", "1", "6790", "6791", "6792"]
        ⟨some 3, true, true, true⟩ ⟨some 4, true, true, true⟩
        ⟨some 5, true, false, true⟩ 9).sockEvents,
       fd ∈ closedFds (mainStartup ["sh", "1", "6790", "6791", "6792"]
        ⟨some 3, true, true, true⟩ ⟨some 4, true, true, true⟩
        ⟨some 5, true, false, true⟩ 9).sockEvents) :=
  ⟨⟨by decide, rfl, C4_all_or_nothing.1 6790 ⟨some 3, true, false, true⟩ 3 (by decide) rfl⟩,
   by decide, by decide, by decide, by decide,
   (C4_all_or_nothing.2 "sh" "1" "6790" "6791" "6792"
      ⟨some 3, true, true, true⟩ ⟨some 4, true, true, true⟩ ⟨some 5, true, false, true⟩
      9 6790 6791 6792 (by decide) (by decide) (by decide)
      (Or.inr (Or.inr (by decide)))).1,
   (C4_all_or_nothing.2 "sh" "1" "6790" "6791" "6792"
      ⟨some 3, true, true, true⟩ ⟨some 4, true, true, true⟩ ⟨some 5, true, false, true⟩
      9 6790 6791 6792 (by decide) (by decide) (by decide)
      (Or.inr (Or.inr (by decide)))).2⟩

/-! ## C8 -/

/-- C8: a wrong argument count (`argc != 5`) or a failed parse of any of
the three port arguments makes the process exit with status `1` before any
socket work: the socket-action trace of the startup phase is empty. -/
theorem C8_bad_args_exit_before_sockets :
    (∀ (argv : List String) (e1 e2 e3 : SockEnv) (pid : Nat),
      argv.length ≠ 5 →
      mainStartup argv e1 e2 e3 pid =
        { outcome := .exit 1, sockEvents := [], stdoutOut := [], verboselogs := 0 }) ∧
    (∀ (p v a b c : String) (e1 e2 e3 : SockEnv) (pid : Nat),
      (parsePortArg a = none ∨ parsePortArg b = none ∨ parsePortArg c = none) →
      (mainStartup [p, v, a, b, c] e1 e2 e3 pid).outcome = MainOutcome.exit 1 ∧
      (mainStartup [p, v, a, b, c] e1 e2 e3 pid).sockEvents = []) := by
  constructor
  · intro argv e1 e2 e3 pid h
    rcases argv with _ | ⟨a0, _ | ⟨a1, _ | ⟨a2, _ | ⟨a3, _ | ⟨a4, _ | ⟨a5, r⟩⟩⟩⟩⟩⟩ <;>
      first
        | rfl
        | (exact absurd rfl h)
  · intro p v a b c e1 e2 e3 pid hdisj
    rcases hdisj with h | h | h
    · simp [mainStartup, h]
    · rcases h1 : parsePortArg a with _ | p1 <;> simp [mainStartup, h1, h]
    · rcases h1 : parsePortArg a with _ | p1 <;>
        rcases h2 : parsePortArg b with _ | p2 <;>
          simp [mainStartup, h1, h2, h]

theorem C8_bad_args_exit_before_sockets_witness :
    ((["sh", "1", "6790"] : List String).length ≠ 5 ∧
     mainStartup ["sh", "1", "6790"] ⟨some 3, true, true, true⟩
        ⟨some 4, true, true, true⟩ ⟨some 5, true, true, true⟩ 9 =
       { outcome := .exit 1, sockEvents := [], stdoutOut := [], verboselogs := 0 }) ∧
    (parsePortArg "70000" = none ∧
     (mainStartup ["sh", "1", "70000", "6791", "6792"] ⟨some 3, true, true, true⟩
        ⟨some 4, true, true, true⟩ ⟨some 5, true, true, true⟩ 9).outcome =
       MainOutcome.exit 1 ∧
     (mainStartup ["sh", "1", "70000", "6791", "6792"] ⟨some 3, true, true, true⟩
        ⟨some 4, true, true, true⟩ ⟨some 5, true, true, true⟩ 9).sockEvents = []) :=
  ⟨⟨by decide,
    C8_bad_args_exit_before_sockets.1 ["sh", "1", "6790"] ⟨some 3, true, true, true⟩
      ⟨some 4, true, true, true⟩ ⟨some 5, true, true, true⟩ 9 (by decide)⟩,
   by decide,
   (C8_bad_args_exit_before_sockets.2 "sh" "1" "70000" "6791" "6792"
      ⟨some 3, true, true, true⟩ ⟨some 4, true, true, true⟩ ⟨some 5, true, true, true⟩
      9 (Or.inl (by decide))).1,
   (C8_bad_args_exit_before_sockets.2 "sh" "1" "70000" "6791" "6792"
      ⟨some 3, true, true, true⟩ ⟨some 4, true, true, true⟩ ⟨some 5, true, true, true⟩
      9 (Or.inl (by decide))).2⟩

/-! ## C9 -/

/-- C9 counterexample: on a successful startup with pid 1234 the process
writes `"1234 \n"` — the pid, a *space*, then a newline (main.c:308 uses
`printf("%d \n", getpid())`) — not `"1234\n"`, so the output is not
"exactly the pid in decimal followed by a newline and nothing else". -/
theorem C9_pid_line_counterexample :
    (mainStartup ["sh", "1", "6790", "6791", "6792"] ⟨some 3, true, true, true⟩
        ⟨some 4, true, true, true⟩ ⟨some 5, true, true, true⟩ 1234).stdoutOut =
      ["1234 \n"] ∧
    ¬ (mainStartup ["sh", "1", "6790", "6791", "6792"] ⟨some 3, true, true, true⟩
        ⟨some 4, true, true, true⟩ ⟨some 5, true, true, true⟩ 1234).stdoutOut =
      ["1234\n"] := by
  constructor
  · decide
  · decide

/-- C9 (amended): on successful startup — all three ports parsed and all
three listening sockets created — the startup phase enters the accept loop
and its entire standard-output trace is the single string consisting of
the pid in decimal, a space, and a newline (written after the three
sockets are listening; the accept loop performs no stdout writes). -/
theorem C9_pid_line_amended :
    ∀ (p v a b c : String) (e1 e2 e3 : SockEnv) (pid fd1 fd2 fd3 p1 p2 p3 : Nat),
      parsePortArg a = some p1 → parsePortArg b = some p2 → parsePortArg c = some p3 →
      (createSocket p1 e1).1 = some fd1 → (createSocket p2 e2).1 = some fd2 →
      (createSocket p3 e3).1 = some fd3 →
      (mainStartup [p, v, a, b, c] e1 e2 e3 pid).outcome =
        MainOutcome.enterLoop fd1 fd2 fd3 ∧
      (mainStartup [p, v, a, b, c] e1 e2 e3 pid).stdoutOut =
        [toString pid ++ " \n"] := by
  intro p v a b c e1 e2 e3 pid fd1 fd2 fd3 p1 p2 p3 ha hb hc h1 h2 h3
  simp [mainStartup, ha, hb, hc, h1, h2, h3, pidLine]

theorem C9_pid_line_amended_witness :
    (parsePortArg "6790" = some 6790 ∧ parsePortArg "6791" = some 6791 ∧
     parsePortArg "6792" = some 6792 ∧
     (createSocket 6790 (⟨some 3, true, true, true⟩ : SockEnv)).1 = some 3 ∧
     (createSocket 6791 (⟨some 4, true, true, true⟩ : SockEnv)).1 = some 4 ∧
     (createSocket 6792 (⟨some 5, true, true, true⟩ : SockEnv)).1 = some 5) ∧
    (mainStartup ["sh", "1", "6790", "6791", "6792"] ⟨some 3, true, true, true⟩
        ⟨some 4, true, true, true⟩ ⟨some 5, true, true, true⟩ 1234).outcome =
      MainOutcome.enterLoop 3 4 5 ∧
    (mainStartup ["sh", "1", "6790", "6791", "6792"] ⟨some 3, true, true, true⟩
        ⟨some 4, true, true, true⟩ ⟨some 5, true, true, true⟩ 1234).stdoutOut =
      [toString 1234 ++ " \n"] :=
  ⟨⟨by decide, by decide, by decide, by decide, by decide, by decide⟩,
   (C9_pid_line_amended "sh" "1" "6790" "6791" "6792" ⟨some 3, true, true, true⟩
      ⟨some 4, true, true, true⟩ ⟨some 5, true, true, true⟩ 1234 3 4 5 6790 6791 6792
      (by decide) (by decide) (by decide) (by decide) (by decide) (by decide)).1,
   (C9_pid_line_amended "sh" "1" "6790" "6791" "6792" ⟨some 3, true, true, true⟩
      ⟨some 4, true, true, true⟩ ⟨some 5, true, true, true⟩ 1234 3 4 5 6790 6791 6792
      (by decide) (by decide) (by decide) (by decide) (by decide) (by decide)).2⟩

/-! ## C10 -/

/-- C10: the verbosity argument is never validated.  The startup outcome,
socket trace and stdout trace are identical for any two first arguments;
the final `verboselogs` global is exactly `atoi(argv[1])`; and the `LOGI`
guard enables verbose logs iff that value is exactly `1` — so `"abc"`
(atoi 0), `"0"` and `"2"` silently disable verbose logs while `"1"`
enables them, and startup never fails because of the first argument. -/
theorem C10_verbosity_unvalidated :
    (∀ (p v w a b c : String) (e1 e2 e3 : SockEnv) (pid : Nat),
      (mainStartup [p, v, a, b, c] e1 e2 e3 pid).outcome =
        (mainStartup [p, w, a, b, c] e1 e2 e3 pid).outcome ∧
      (mainStartup [p, v, a, b, c] e1 e2 e3 pid).sockEvents =
        (mainStartup [p, w, a, b, c] e1 e2 e3 pid).sockEvents ∧
      (mainStartup [p, v, a, b, c] e1 e2 e3 pid).stdoutOut =
        (mainStartup [p, w, a, b, c] e1 e2 e3 pid).stdoutOut) ∧
    (∀ (p v a b c : String) (e1 e2 e3 : SockEnv) (pid : Nat),
      (mainStartup [p, v, a, b, c] e1 e2 e3 pid).verboselogs = atoi v) ∧
    (∀ verboselogs : Int, verboseEnabled verboselogs = true ↔ verboselogs = 1) ∧
    atoi "abc" = 0 ∧ atoi "0" = 0 ∧ atoi "2" = 2 ∧ atoi "1" = 1 ∧
    verboseEnabled (atoi "abc") = false ∧ verboseEnabled (atoi "0") = false ∧
    verboseEnabled (atoi "2") = false ∧ verboseEnabled (atoi "1") = true := by
  refine ⟨?_, ?_, ?_, by decide, by decide, by decide, by decide,
    by decide, by decide, by decide, by decide⟩
  · intro p v w a b c e1 e2 e3 pid
    rcases h1 : parsePortArg a with _ | p1
    · simp [mainStartup, h1]
    · rcases h2 : parsePortArg b with _ | p2
      · simp [mainStartup, h1, h2]
      · rcases h3 : parsePortArg c with _ | p3
        · simp [mainStartup, h1, h2, h3]
        · rcases hc1 : (createSocket p1 e1).1 with _ | fd1
          · simp [mainStartup, h1, h2, h3, hc1]
          · rcases hc2 : (createSocket p2 e2).1 with _ | fd2
            · simp [mainStartup, h1, h2, h3, hc1, hc2]
            · rcases hc3 : (createSocket p3 e3).1 with _ | fd3 <;>
                simp [mainStartup, h1, h2, h3, hc1, hc2, hc3]
  · intro p v a b c e1 e2 e3 pid
    rcases h1 : parsePortArg a with _ | p1
    · simp [mainStartup, h1]
    · rcases h2 : parsePortArg b with _ | p2
      · simp [mainStartup, h1, h2]
      · rcases h3 : parsePortArg c with _ | p3
        · simp [mainStartup, h1, h2, h3]
        · rcases hc1 : (createSocket p1 e1).1 with _ | fd1
          · simp [mainStartup, h1, h2, h3, hc1]
          · rcases hc2 : (createSocket p2 e2).1 with _ | fd2
            · simp [mainStartup, h1, h2, h3, hc1, hc2]
            · rcases hc3 : (createSocket p3 e3).1 with _ | fd3 <;>
                simp [mainStartup, h1, h2, h3, hc1, hc2, hc3]
  · intro x
    simp [verboseEnabled]

end NativeShell
